import Mathlib

/-!
# Verification of the hgraph-agent conversation engine

Shallow embedding of the agent runtime of `rintoj/hgraph-agent`
(`src/agent/agent.ts`, `src/agent-message/agent-message.type.ts`,
`src/tool/tools.type.ts`) together with proofs checking the repository's
natural-language specification against it.

Modelling conventions:
* Async generators become pure functions returning the list of yielded
  values (plus, for tools, an `Except` carrying the generator's terminal
  string or the thrown error).
* `Date.now()` / `Math.random()` based identifiers become a deterministic
  counter (`call_0`, `call_1`, ...); only distinctness and correlation of
  the ids matter to the properties checked here.
* The model adapter (`startChat` / `sendMessage`) is an external
  collaborator; it is modelled as an oracle mapping the index of a
  `sendMessage` call to the adapter's behaviour on that call (a reply with
  a function-call list and a text, or a thrown transport failure).
* `generateId()` for the thread id is modelled as an externally supplied
  fresh string.
* Thrown JavaScript exceptions surface as the `.thrown` outcome of a run;
  the agent's `conversationHistory` field after the run is reported in all
  outcomes, since it persists on the instance even when the generator
  throws.
-/

/-- `MessageRole` from `agent-message.type.ts`. -/
inductive MessageRole where
  | user
  | assistant
  | system
  | tool
deriving DecidableEq, Repr

/-- `MessageType` from `agent-message.type.ts`. -/
inductive MessageType where
  | info
  | warn
  | error
  | completed
  | log
  | final_response
deriving DecidableEq, Repr

/-- Untyped key-value argument record (`Record<string, any>`); values are
modelled as their JSON source text. -/
def Args : Type := List (String × String)

instance : DecidableEq Args := by
  unfold Args
  infer_instance

instance : Repr Args := by
  unfold Args
  infer_instance

/-- `ToolCall` from `agent-message.type.ts`. -/
structure ToolCall where
  id : String
  name : String
  arguments : Args
  threadId : Option String := none
deriving DecidableEq, Repr

/-- `AgentMessage` from `agent-message.type.ts`. -/
structure AgentMessage where
  id : String
  role : MessageRole
  content : String
  tool_calls : Option (List ToolCall) := none
  tool_call_id : Option String := none
  type : Option MessageType := none
  threadId : Option String := none
deriving DecidableEq, Repr

/-- `createAssistantMessage` from `agent-message.util.ts` (source file not
in the snapshot; signature and behaviour documented in the repository's
Messages module documentation): an assistant-role streaming message with
the given type, content and thread id.  The generated unique id is opaque
to every property proved here and is modelled by a fixed token. -/
def createAssistantMessage (type : MessageType) (content : String)
    (threadId : Option String) : AgentMessage :=
  { id := "generated", role := MessageRole.assistant, content := content,
    type := some type, threadId := threadId }

/-- `ToolFunction` from `tools.type.ts`.  The zod schema becomes its
`parse` function (validation failure = thrown `ZodError` with a message);
`run` returns the result string or the thrown error; `runWithStream`
returns the list of yielded messages together with the generator's
terminal string (or the error thrown after those yields).  The TS type
forbids supplying both `run` and `runWithStream`, but the dispatcher
defends against arbitrary registrants, so both fields are optional here
exactly as they are checked at runtime. -/
structure ToolFunction where
  description : String
  parameters : Args → Except String Args
  run : Option (Args → Except String String) := none
  runWithStream : Option (Args → List AgentMessage × Except String String) := none

/-- `FunctionCall` as consumed from the adapter response
(`@google/generative-ai`): a requested tool name with raw arguments. -/
structure FunctionCall where
  name : String
  args : Args
deriving DecidableEq, Repr

/-- One adapter `sendMessage` behaviour: a reply exposing
`functionCalls()` and `text()`, or a thrown transport/provider failure. -/
inductive ModelResponse where
  | reply (functionCalls : List FunctionCall) (text : String)
  | fail (err : String)

/-- The model adapter as an oracle: the behaviour of the n-th
`sendMessage` call of a run. -/
def ModelOracle : Type := Nat → ModelResponse

/-- `AgentConfig` fields consumed by the engine. -/
structure AgentConfig where
  name : String
  description : String
  instruction : String

/-- Model of `JSON.stringify` on an argument record, used by the
dispatcher's `toolSignature`. -/
def reprArgs (a : Args) : String :=
  "\x7b" ++ String.intercalate "," ((a : List (String × String)).map
    fun p => "\x22" ++ p.1 ++ "\x22:" ++ p.2) ++ "\x7d"

/-- `agent.ts` line 51: `${toolCall.name} (${JSON.stringify(toolCall.arguments)})`. -/
def toolSignature (toolCall : ToolCall) : String :=
  toolCall.name ++ " (" ++ reprArgs toolCall.arguments ++ ")"

/-- `Agent.executeToolCall` (`agent.ts` lines 50-89), as the list of
messages the async generator yields for one `ToolCall`.

Source correspondence, step by step:
* registry miss → one `error` message naming the tool (lines 53-61);
* neither `run` nor `runWithStream` → one `error` message (lines 62-68);
* `tool.parameters.parse` throws a `ZodError` → one `error` message with
  the signature and the zod message (lines 71, 82-83, 87);
* streaming tool: every chunk the generator yields is itself yielded
  (lines 72-75); the generator's terminal string is NOT consumed by the
  `for await` loop, so nothing is emitted after the chunks on normal
  completion; an error thrown by the generator after its yields produces
  one `error` message (lines 80, 84-87);
* buffered tool: the awaited result becomes one `final_response` message,
  a rejection becomes one `error` message (lines 76-79, 84-87). -/
def executeToolCall (tools : List (String × ToolFunction)) (toolCall : ToolCall) :
    List AgentMessage :=
  match List.lookup toolCall.name tools with
  | none =>
      [createAssistantMessage MessageType.error
        ("Error: Tool \x27" ++ toolCall.name ++ "\x27 not found") toolCall.threadId]
  | some tool =>
      if tool.run.isNone && tool.runWithStream.isNone then
        [createAssistantMessage MessageType.error
          ("Error: Tool \x27" ++ toolCall.name ++
            "\x27 does not have a \x27run\x27 or \x27runWithStream\x27 method.")
          toolCall.threadId]
      else
        match tool.parameters toolCall.arguments with
        | Except.error zodMessage =>
            [createAssistantMessage MessageType.error
              ("Error: Invalid arguments for " ++ toolSignature toolCall ++ ": " ++ zodMessage)
              toolCall.threadId]
        | Except.ok validatedArgs =>
            match tool.runWithStream with
            | some stream =>
                match stream validatedArgs with
                | (chunks, Except.ok _) => chunks
                | (chunks, Except.error e) =>
                    chunks ++ [createAssistantMessage MessageType.error
                      ("Error executing " ++ toolSignature toolCall ++ ": " ++ e)
                      toolCall.threadId]
            | none =>
                match tool.run with
                | some runFn =>
                    match runFn validatedArgs with
                    | Except.ok result =>
                        [createAssistantMessage MessageType.final_response result
                          toolCall.threadId]
                    | Except.error e =>
                        [createAssistantMessage MessageType.error
                          ("Error executing " ++ toolSignature toolCall ++ ": " ++ e)
                          toolCall.threadId]
                | none => []  -- unreachable: excluded by the guard on line 62

/-- `Agent.ensureInstruction` (`agent.ts` lines 38-48).  The source reads
`messages[0].role`, so the empty-input case throws a `TypeError` before
returning; that throw is surfaced by `runWithStream` below, which models
this branch as unreachable here. -/
def ensureInstruction (config : AgentConfig) (messages : List AgentMessage)
    (threadId : String) : List AgentMessage :=
  match messages with
  | [] => []
  | m :: rest =>
      if m.role = MessageRole.user ∧ m.content = config.instruction then
        m :: rest
      else
        { id := "system-prompt", role := MessageRole.user,
          content := config.instruction, threadId := some threadId } :: m :: rest

/-- The synthetic instruction message prepended by `ensureInstruction`. -/
def systemPromptMessage (config : AgentConfig) (threadId : String) : AgentMessage :=
  { id := "system-prompt", role := MessageRole.user, content := config.instruction,
    threadId := some threadId }

/-- Deterministic model of the `call_${Date.now()}_${Math.random()}` id of
the n-th `ToolCall` fabricated during a run. -/
def callId (idx : Nat) : String := "call_" ++ toString idx

/-- The `ToolCall` fabricated by `runWithStream` (lines 129-134) for the
idx-th function call of the run. -/
def mkToolCall (idx : Nat) (fc : FunctionCall) (threadId : String) : ToolCall :=
  { id := callId idx, name := fc.name, arguments := fc.args, threadId := some threadId }

/-- Predicate from `agent.ts` lines 137-140: is this dispatcher event a
terminal (`final_response` or `error`) event? -/
def isTerminal (m : AgentMessage) : Bool :=
  m.type = some MessageType.final_response || m.type = some MessageType.error

/-- The tool-role history entry synthesized from a terminal dispatcher
event (`agent.ts` lines 141-147). -/
def toToolEntry (toolCall : ToolCall) (threadId : String) (m : AgentMessage) :
    AgentMessage :=
  { id := toolCall.id, role := MessageRole.tool, content := m.content,
    tool_call_id := some toolCall.id, threadId := some threadId }

/-- The DISPATCHING phase of one turn (`agent.ts` lines 128-157): for each
requested call, in order, the engine yields a `log` event naming the tool,
drains `executeToolCall` — appending a tool-role entry to history for each
`final_response`/`error`-typed dispatcher event and yielding none of the
dispatcher's events on the stream — then yields a completion `log`.
Returns (events yielded on the stream, history entries appended). -/
def processToolCalls (tools : List (String × ToolFunction)) (threadId : String) :
    List FunctionCall → Nat → List AgentMessage × List AgentMessage
  | [], _ => ([], [])
  | fc :: rest, idx =>
      let toolCall := mkToolCall idx fc threadId
      let entries := ((executeToolCall tools toolCall).filter isTerminal).map
        (toToolEntry toolCall threadId)
      let next := processToolCalls tools threadId rest (idx + 1)
      (createAssistantMessage MessageType.log ("Calling tool: " ++ toolCall.name)
          (some threadId)
        :: createAssistantMessage MessageType.log
            ("Calling tool " ++ toolCall.name ++ " completed.") (some threadId)
        :: next.1,
       entries ++ next.2)

/-- Record of one `sendMessage` call: the history the single chat session
was constructed from, the message passed, and the engine's history at the
moment of the call. -/
structure SendRecord where
  sessionHistory : List AgentMessage
  message : AgentMessage
  historyAt : List AgentMessage
deriving DecidableEq, Repr

/-- How a run ends: the generator returns the full history, or a
JavaScript exception propagates to the caller. -/
inductive Outcome where
  | success (returned : List AgentMessage)
  | thrown (err : String)
deriving DecidableEq, Repr

/-- Observable result of one `run`/`runWithStream` invocation. -/
structure RunResult where
  events : List AgentMessage
  history : List AgentMessage
  calls : List SendRecord
  outcome : Outcome
deriving DecidableEq, Repr

/-- Placeholder for `conversationHistory[length-1]` on an empty history;
unreachable from `runWithStream` (the history is non-empty from PREPARING
on whenever the input messages are non-empty). -/
def undefinedMessage : AgentMessage :=
  { id := "", role := MessageRole.user, content := "" }

/-- The assistant message appended when a turn (or the forced completion)
produces the model's final text (`agent.ts` lines 160-165 and 185-190);
the `assistant-${Date.now()}-${Math.random()}` id is modelled by a fixed
token, as no property here depends on it. -/
def assistantReply (text : String) (threadId : String) : AgentMessage :=
  { id := "assistant-generated", role := MessageRole.assistant, content := text,
    threadId := some threadId }

/-- The FORCED_COMPLETION outgoing message (`agent.ts` lines 181-184): the
prior message with the conclude instruction appended to its content. -/
def concludeMessage (m : AgentMessage) : AgentMessage :=
  { m with content :=
      m.content ++ " Conclude your response without making any function calls." }

/-- The turn loop of `Agent.runWithStream` (`agent.ts` lines 115-194).
`fuel` is the number of loop iterations still allowed (`maxTurns - turn`),
`callNo` indexes the adapter oracle, `callIdx` numbers fabricated tool
calls.  `chat` is the single session handle created before the loop
(line 113), recorded with every `sendMessage`.

Source correspondence:
* `fuel = 0`: lines 176-194 — `warn` and `log` events, one more adapter
  call with the conclude-suffixed last message NOT guarded by any
  try/catch (a failure propagates without an `error` event), then on
  success the final assistant message is appended and `completed` /
  `final_response` are yielded;
* adapter failure inside the loop (lines 171-174): one `error` event with
  the wrapped message, then the wrapped error is thrown;
* non-empty function-call list (lines 121-157): `log` events, sequential
  dispatch via `processToolCalls`, recurse into the next turn;
* empty list (lines 158-169): `log`, append the assistant answer,
  `completed`, `final_response`, return the history. -/
def runLoop (tools : List (String × ToolFunction)) (oracle : ModelOracle)
    (chat : List AgentMessage) (threadId : String) :
    Nat → Nat → List AgentMessage → Nat → RunResult
  | 0, callNo, history, _ =>
      let lastMessage := history.getLastD undefinedMessage
      let send := concludeMessage lastMessage
      let rec0 : SendRecord := ⟨chat, send, history⟩
      let evs := [createAssistantMessage MessageType.warn "Maximum turns reached."
          (some threadId),
        createAssistantMessage MessageType.log "Finalizing response..." (some threadId)]
      match oracle callNo with
      | ModelResponse.fail err => ⟨evs, history, [rec0], Outcome.thrown err⟩
      | ModelResponse.reply _ text =>
          let finalAssistant := assistantReply text threadId
          ⟨evs ++ [createAssistantMessage MessageType.completed "Agent run completed."
              (some threadId),
            createAssistantMessage MessageType.final_response text (some threadId)],
           history ++ [finalAssistant], [rec0],
           Outcome.success (history ++ [finalAssistant])⟩
  | fuel + 1, callNo, history, callIdx =>
      let evThink := createAssistantMessage MessageType.log "Thinking..." (some threadId)
      let lastMessage := history.getLastD undefinedMessage
      let rec0 : SendRecord := ⟨chat, lastMessage, history⟩
      match oracle callNo with
      | ModelResponse.fail err =>
          let msg := "Agent error: " ++ err
          ⟨[evThink, createAssistantMessage MessageType.error msg (some threadId)],
           history, [rec0], Outcome.thrown msg⟩
      | ModelResponse.reply functionCalls text =>
          if functionCalls.isEmpty then
            let assistantMessage := assistantReply text threadId
            ⟨[evThink, createAssistantMessage MessageType.log "Completed" (some threadId),
              createAssistantMessage MessageType.completed "Agent run completed."
                (some threadId),
              createAssistantMessage MessageType.final_response text (some threadId)],
             history ++ [assistantMessage], [rec0],
             Outcome.success (history ++ [assistantMessage])⟩
          else
            let evDetect := createAssistantMessage MessageType.log
              ("Detected " ++ toString functionCalls.length ++ " function calls.")
              (some threadId)
            let dispatched := processToolCalls tools threadId functionCalls callIdx
            let rest := runLoop tools oracle chat threadId fuel (callNo + 1)
              (history ++ dispatched.2) (callIdx + functionCalls.length)
            ⟨evThink :: evDetect :: dispatched.1 ++ rest.events, rest.history,
             rec0 :: rest.calls, rest.outcome⟩

/-- The `TypeError` thrown by `ensureInstruction` when `messages` is
empty (`messages[0].role` on `undefined`). -/
def typeErrorEmptyMessages : String :=
  "TypeError: Cannot read properties of undefined (reading \x27role\x27)"

/-- `Agent.runWithStream` (`agent.ts` lines 106-195).  `history0` is the
agent's `conversationHistory` before the call, `threadId` the fresh id of
this run, `options` the caller's `maxTurns` (`none` = default 150).  An
empty `messages` list throws inside `ensureInstruction` before any state
change or adapter call. -/
def runWithStream (config : AgentConfig) (tools : List (String × ToolFunction))
    (oracle : ModelOracle) (threadId : String) (history0 : List AgentMessage)
    (messages : List AgentMessage) (options : Option Nat) : RunResult :=
  match messages with
  | [] => ⟨[], history0, [], Outcome.thrown typeErrorEmptyMessages⟩
  | m :: rest =>
      let maxTurns := options.getD 150
      let messagesWithInstruction := ensureInstruction config (m :: rest) threadId
      let history1 := history0 ++ messagesWithInstruction
      let chat := history1.dropLast
      runLoop tools oracle chat threadId maxTurns 0 history1 0

/-- `Agent.run` (`agent.ts` lines 91-104): drain `runWithStream`,
collecting a fresh assistant message for every `final_response` event. -/
def run (config : AgentConfig) (tools : List (String × ToolFunction))
    (oracle : ModelOracle) (threadId : String) (history0 : List AgentMessage)
    (messages : List AgentMessage) (options : Option Nat) :
    RunResult × List AgentMessage :=
  let r := runWithStream config tools oracle threadId history0 messages options
  (r, (r.events.filter fun m => m.type = some MessageType.final_response).map
    fun m => { id := "generated", role := MessageRole.assistant,
               content := m.content, threadId := m.threadId })

/-- Number of events of a given type in an event list. -/
def countType (t : MessageType) (events : List AgentMessage) : Nat :=
  (events.filter fun m => m.type = some t).length

/-- Number of `final_response` events a run is expected to yield for each
outcome: one on success, none when an exception propagates. -/
def terminalExpected : Outcome → Nat
  | Outcome.success _ => 1
  | Outcome.thrown _ => 0

/-- Spec-side description of the events the engine itself puts on the
stream while dispatching a turn's function calls: exactly two `log`
events per call (announcement and completion), and nothing else — in
particular none of the dispatcher's own events. -/
def dispatchLogsSpec (threadId : String) : List FunctionCall → List AgentMessage
  | [] => []
  | fc :: rest =>
      createAssistantMessage MessageType.log ("Calling tool: " ++ fc.name)
          (some threadId)
        :: createAssistantMessage MessageType.log
            ("Calling tool " ++ fc.name ++ " completed.") (some threadId)
        :: dispatchLogsSpec threadId rest

/-- Spec-side description of the history entries appended while
dispatching a turn's calls: per call, in request order, one tool-role
entry for each terminal (`final_response`/`error`) dispatcher event, with
the event's content and the call's id as `tool_call_id`. -/
def toolEntriesSpec (tools : List (String × ToolFunction)) (threadId : String) :
    List FunctionCall → Nat → List AgentMessage
  | [], _ => []
  | fc :: rest, idx =>
      ((executeToolCall tools (mkToolCall idx fc threadId)).filter isTerminal).map
        (toToolEntry (mkToolCall idx fc threadId) threadId)
      ++ toolEntriesSpec tools threadId rest (idx + 1)

/-- Number of terminal events the dispatcher produces for one call. -/
def terminalCount (tools : List (String × ToolFunction)) (threadId : String)
    (idx : Nat) (fc : FunctionCall) : Nat :=
  ((executeToolCall tools (mkToolCall idx fc threadId)).filter isTerminal).length

/-- The `tool_call_id`s of the entries appended for a turn: per call, in
request order, the call's id repeated once per terminal event. -/
def callIdsSpec (tools : List (String × ToolFunction)) (threadId : String) :
    List FunctionCall → Nat → List (Option String)
  | [], _ => []
  | fc :: rest, idx =>
      List.replicate (terminalCount tools threadId idx fc) (some (callId idx))
      ++ callIdsSpec tools threadId rest (idx + 1)

/-- The requested calls' ids, one per call, in request order. -/
def callIdsInOrder : List FunctionCall → Nat → List (Option String)
  | [], _ => []
  | _ :: rest, idx => some (callId idx) :: callIdsInOrder rest (idx + 1)

/-- Every call of the turn produces exactly one terminal dispatcher
event (the dispatcher contract of spec section 4.4). -/
def eachCallOneTerminal (tools : List (String × ToolFunction)) (threadId : String) :
    List FunctionCall → Nat → Prop
  | [], _ => True
  | fc :: rest, idx =>
      terminalCount tools threadId idx fc = 1 ∧
      eachCallOneTerminal tools threadId rest (idx + 1)

/-! ## Concrete scenarios

Small tools, oracles and runs used to settle the claims on concrete
inputs.  Every tool below is well-formed with respect to the Tool
contract of spec section 4.2. -/

/-- A permissive schema: accepts any argument record unchanged. -/
def okSchema : Args → Except String Args := fun a => Except.ok a

/-- A schema that rejects every argument record, as `z.object` does on a
type mismatch. -/
def rejectSchema : Args → Except String Args :=
  fun _ => Except.error "Expected number, received string"

/-- The demonstration agent configuration. -/
def demoConfig : AgentConfig :=
  { name := "agent", description := "demo agent", instruction := "You are helpful." }

/-- A plain user message. -/
def userHi : AgentMessage := { id := "m1", role := MessageRole.user, content := "Hi" }

/-- A streaming tool that yields no messages and completes with the
terminal string "hello" — the smallest well-formed streaming tool. -/
def echoStreamTool : ToolFunction :=
  { description := "yields nothing, returns hello", parameters := okSchema,
    runWithStream := some fun _ => ([], Except.ok "hello") }

/-- A dispatch request for `echoStreamTool` under the name "echo". -/
def echoStreamCall : ToolCall :=
  { id := "call_0", name := "echo", arguments := ([] : Args),
    threadId := some "thread-1" }

/-- A progress message yielded by a streaming tool. -/
def progressChunk : AgentMessage :=
  createAssistantMessage MessageType.log "streamed-progress-chunk" (some "thread-1")

/-- A streaming tool that yields one progress chunk, then completes with
the terminal string "done". -/
def progressStreamTool : ToolFunction :=
  { description := "yields one progress chunk", parameters := okSchema,
    runWithStream := some fun _ => ([progressChunk], Except.ok "done") }

/-- A buffered tool returning "42". -/
def doubleTool : ToolFunction :=
  { description := "doubles a number", parameters := okSchema,
    run := some fun _ => Except.ok "42" }

/-- An adapter oracle requesting one call of the "progress" tool on the
first turn and answering with plain text on the second. -/
def progressOracle : ModelOracle := fun n =>
  if n = 0 then ModelResponse.reply [{ name := "progress", args := ([] : Args) }] ""
  else ModelResponse.reply [] "final answer"

/-- The run exercising `progressStreamTool` through the engine. -/
def progressRun : RunResult :=
  runWithStream demoConfig [("progress", progressStreamTool)] progressOracle
    "thread-1" [] [userHi] (some 5)

/-- An adapter oracle whose every `sendMessage` call fails. -/
def failOracle : ModelOracle := fun _ => ModelResponse.fail "boom"

/-- A run with `maxTurns = 0`: the loop body never executes and the
forced-completion adapter call fails. -/
def forcedFailRun : RunResult :=
  runWithStream demoConfig [] failOracle "thread-1" [] [userHi] (some 0)

/-- A run whose very first THINKING-turn adapter call fails. -/
def loopFailRun : RunResult :=
  runWithStream demoConfig [] failOracle "thread-1" [] [userHi] (some 3)

/-- An adapter oracle requesting one "double" call, then answering. -/
def doubleOracle : ModelOracle := fun n =>
  if n = 0 then ModelResponse.reply [{ name := "double", args := ([] : Args) }] ""
  else ModelResponse.reply [] "done"

/-- A two-turn run with one buffered tool call. -/
def doubleRun : RunResult :=
  runWithStream demoConfig [("double", doubleTool)] doubleOracle
    "thread-1" [] [userHi] (some 5)

/-- Placeholder record for indexing into a call list. -/
def dummyRecord : SendRecord := ⟨[], undefinedMessage, []⟩

/-- The first `sendMessage` record of `doubleRun`. -/
def doubleRunFirstRecord : SendRecord := doubleRun.calls.getD 0 dummyRecord

/-- An assistant-role message whose content equals the demo agent's
instruction (but whose role is not `user`). -/
def roguePromptMessage : AgentMessage :=
  { id := "m2", role := MessageRole.assistant, content := "You are helpful." }

/-- A user-role message whose content equals the demo agent's
instruction: exactly the shape `ensureInstruction` accepts as-is. -/
def instructionFirstMessage : AgentMessage :=
  { id := "m3", role := MessageRole.user, content := "You are helpful." }

/-- An adapter oracle that immediately answers with plain text. -/
def textOracle : ModelOracle := fun _ => ModelResponse.reply [] "ok"

/-- A run whose input starts with an assistant-role copy of the
instruction. -/
def roguePromptRun : RunResult :=
  runWithStream demoConfig [] textOracle "thread-1" [] [roguePromptMessage] (some 1)

/-- An adapter oracle requesting, on one turn, a silent streaming call
then a buffered call. -/
def mixedOracle : ModelOracle := fun n =>
  if n = 0 then
    ModelResponse.reply [{ name := "echo", args := ([] : Args) },
      { name := "double", args := ([] : Args) }] ""
  else ModelResponse.reply [] "done"

/-- A turn with two requested calls of which only the second produces a
terminal dispatcher event. -/
def mixedRun : RunResult :=
  runWithStream demoConfig [("echo", echoStreamTool), ("double", doubleTool)]
    mixedOracle "thread-1" [] [userHi] (some 5)

/-- A buffered tool whose execution rejects. -/
def throwTool : ToolFunction :=
  { description := "always throws", parameters := okSchema,
    run := some fun _ => Except.error "ENOENT" }

/-- A buffered tool guarded by the rejecting schema. -/
def validateTool : ToolFunction :=
  { description := "strict schema", parameters := rejectSchema,
    run := some fun _ => Except.ok "ok" }

/-- A registrant with neither execution shape. -/
def methodlessTool : ToolFunction :=
  { description := "no method", parameters := okSchema }

/-- A streaming tool that yields one progress chunk and then throws. -/
def streamThrowTool : ToolFunction :=
  { description := "stream then throw", parameters := okSchema,
    runWithStream := some fun _ => ([progressChunk], Except.error "midway failure") }

/-- An adapter oracle requesting one call of an unregistered tool, then
answering with plain text: the recovery scenario of spec section 7. -/
def missingToolOracle : ModelOracle := fun n =>
  if n = 0 then ModelResponse.reply [{ name := "missing", args := ([] : Args) }] ""
  else ModelResponse.reply [] "recovered"

/-- A streaming tool guarded by the rejecting schema. -/
def strictStreamTool : ToolFunction :=
  { description := "strict streaming schema", parameters := rejectSchema,
    runWithStream := some fun _ => ([], Except.ok "x") }

/-- A dispatch request for a name absent from the registry. -/
def ghostCall : ToolCall :=
  { id := "call_0", name := "ghost", arguments := ([] : Args),
    threadId := some "thread-1" }

/-- A dispatch request for the method-less registrant. -/
def methodlessCall : ToolCall :=
  { id := "call_0", name := "inert", arguments := ([] : Args),
    threadId := some "thread-1" }

/-- A dispatch request for the schema-rejecting buffered tool. -/
def validateCall : ToolCall :=
  { id := "call_0", name := "strict", arguments := ([] : Args),
    threadId := some "thread-1" }

/-- A dispatch request for the schema-rejecting streaming tool. -/
def strictStreamCall : ToolCall :=
  { id := "call_0", name := "strictstream", arguments := ([] : Args),
    threadId := some "thread-1" }

/-- A dispatch request for the rejecting buffered tool. -/
def throwCall : ToolCall :=
  { id := "call_0", name := "boomtool", arguments := ([] : Args),
    threadId := some "thread-1" }

/-- A dispatch request for the mid-stream-throwing tool. -/
def streamThrowCall : ToolCall :=
  { id := "call_0", name := "streamboom", arguments := ([] : Args),
    threadId := some "thread-1" }

/-- A two-turn run in which the first turn's only tool call misses the
registry and the second turn answers with plain text. -/
def missingRun : RunResult :=
  runWithStream demoConfig [("double", doubleTool)] missingToolOracle
    "thread-1" [] [userHi] (some 2)

/-! ## Shared structural lemmas -/

theorem processToolCalls_fst (tools : List (String × ToolFunction)) (threadId : String)
    (fcs : List FunctionCall) (idx : Nat) :
    (processToolCalls tools threadId fcs idx).1 = dispatchLogsSpec threadId fcs := by
  induction fcs generalizing idx with
  | nil => rfl
  | cons fc rest ih =>
      simp only [processToolCalls, dispatchLogsSpec, mkToolCall, ih]

theorem processToolCalls_snd (tools : List (String × ToolFunction)) (threadId : String)
    (fcs : List FunctionCall) (idx : Nat) :
    (processToolCalls tools threadId fcs idx).2 = toolEntriesSpec tools threadId fcs idx := by
  induction fcs generalizing idx with
  | nil => rfl
  | cons fc rest ih =>
      simp only [processToolCalls, toolEntriesSpec, ih]

theorem dispatchLogsSpec_types (threadId : String) (fcs : List FunctionCall) :
    ∀ m ∈ dispatchLogsSpec threadId fcs, m.type = some MessageType.log := by
  induction fcs with
  | nil => intro m hm; simp [dispatchLogsSpec] at hm
  | cons fc rest ih =>
      intro m hm
      simp only [dispatchLogsSpec, List.mem_cons] at hm
      rcases hm with h | h | h
      · subst h; rfl
      · subst h; rfl
      · exact ih m h

theorem toolEntriesSpec_roles (tools : List (String × ToolFunction)) (threadId : String)
    (fcs : List FunctionCall) (idx : Nat) :
    ∀ m ∈ toolEntriesSpec tools threadId fcs idx, m.role = MessageRole.tool := by
  induction fcs generalizing idx with
  | nil => intro m hm; simp [toolEntriesSpec] at hm
  | cons fc rest ih =>
      intro m hm
      simp only [toolEntriesSpec, List.mem_append, List.mem_map] at hm
      rcases hm with ⟨e, _, rfl⟩ | h
      · rfl
      · exact ih (idx + 1) m h

theorem runLoop_history (tools : List (String × ToolFunction)) (oracle : ModelOracle)
    (chat : List AgentMessage) (threadId : String) :
    ∀ (fuel callNo : Nat) (history : List AgentMessage) (callIdx : Nat),
      ∃ d, (runLoop tools oracle chat threadId fuel callNo history callIdx).history
          = history ++ d ∧
        ∀ m ∈ d, m.role = MessageRole.tool ∨ m.role = MessageRole.assistant := by
  intro fuel
  induction fuel with
  | zero =>
      intro callNo history callIdx
      cases h : oracle callNo with
      | fail err =>
          refine ⟨[], ?_, by simp⟩
          simp [runLoop, h]
      | reply fcs text =>
          refine ⟨[assistantReply text threadId], ?_, ?_⟩
          · simp [runLoop, h]
          · intro m hm
            simp only [List.mem_singleton] at hm
            subst hm
            exact Or.inr rfl
  | succ fuel ih =>
      intro callNo history callIdx
      cases h : oracle callNo with
      | fail err =>
          refine ⟨[], ?_, by simp⟩
          simp [runLoop, h]
      | reply fcs text =>
          cases fcs with
          | nil =>
              refine ⟨[assistantReply text threadId], ?_, ?_⟩
              · simp [runLoop, h]
              · intro m hm
                simp only [List.mem_singleton] at hm
                subst hm
                exact Or.inr rfl
          | cons fc rest =>
              obtain ⟨d, hd, hroles⟩ := ih (callNo + 1)
                (history ++ (processToolCalls tools threadId (fc :: rest) callIdx).2)
                (callIdx + (fc :: rest).length)
              refine ⟨(processToolCalls tools threadId (fc :: rest) callIdx).2 ++ d, ?_, ?_⟩
              · simp only [runLoop, h]
                simp only [List.isEmpty_cons, Bool.false_eq_true, if_false]
                rw [hd, List.append_assoc]
              · intro m hm
                rcases List.mem_append.mp hm with hm | hm
                · left
                  rw [processToolCalls_snd] at hm
                  exact toolEntriesSpec_roles tools threadId (fc :: rest) callIdx m hm
                · exact hroles m hm

theorem runLoop_calls_length (tools : List (String × ToolFunction)) (oracle : ModelOracle)
    (chat : List AgentMessage) (threadId : String) :
    ∀ (fuel callNo : Nat) (history : List AgentMessage) (callIdx : Nat),
      (runLoop tools oracle chat threadId fuel callNo history callIdx).calls.length
        ≤ fuel + 1 := by
  intro fuel
  induction fuel with
  | zero =>
      intro callNo history callIdx
      cases h : oracle callNo with
      | fail err => simp [runLoop, h]
      | reply fcs text => simp [runLoop, h]
  | succ fuel ih =>
      intro callNo history callIdx
      cases h : oracle callNo with
      | fail err => simp [runLoop, h]
      | reply fcs text =>
          cases fcs with
          | nil => simp [runLoop, h]
          | cons fc rest =>
              simp only [runLoop, h, List.isEmpty_cons, Bool.false_eq_true, if_false,
                List.length_cons]
              exact Nat.succ_le_succ (ih (callNo + 1) _ _)

theorem countType_append (t : MessageType) (l1 l2 : List AgentMessage) :
    countType t (l1 ++ l2) = countType t l1 + countType t l2 := by
  simp [countType, List.filter_append]

theorem countType_dispatchLogs (t : MessageType) (threadId : String)
    (fcs : List FunctionCall) (h : t ≠ MessageType.log) :
    countType t (dispatchLogsSpec threadId fcs) = 0 := by
  simp only [countType, List.length_eq_zero, List.filter_eq_nil_iff]
  intro m hm
  rw [dispatchLogsSpec_types threadId fcs m hm]
  simp [h.symm]

theorem runLoop_final_count (tools : List (String × ToolFunction)) (oracle : ModelOracle)
    (chat : List AgentMessage) (threadId : String) :
    ∀ (fuel callNo : Nat) (history : List AgentMessage) (callIdx : Nat),
      countType MessageType.final_response
          (runLoop tools oracle chat threadId fuel callNo history callIdx).events
        = terminalExpected
            (runLoop tools oracle chat threadId fuel callNo history callIdx).outcome := by
  intro fuel
  induction fuel with
  | zero =>
      intro callNo history callIdx
      cases h : oracle callNo with
      | fail err => simp [runLoop, h, countType, terminalExpected, createAssistantMessage]
      | reply fcs text =>
          simp [runLoop, h, countType, terminalExpected, createAssistantMessage]
  | succ fuel ih =>
      intro callNo history callIdx
      cases h : oracle callNo with
      | fail err => simp [runLoop, h, countType, terminalExpected, createAssistantMessage]
      | reply fcs text =>
          cases fcs with
          | nil => simp [runLoop, h, countType, terminalExpected, createAssistantMessage]
          | cons fc rest =>
              simp only [runLoop, h, List.isEmpty_cons, Bool.false_eq_true, if_false]
              have hlogs : countType MessageType.final_response
                  (processToolCalls tools threadId (fc :: rest) callIdx).1 = 0 := by
                rw [processToolCalls_fst]
                exact countType_dispatchLogs MessageType.final_response threadId
                  (fc :: rest) (by intro hc; cases hc)
              have hrec := ih (callNo + 1)
                (history ++ (processToolCalls tools threadId (fc :: rest) callIdx).2)
                (callIdx + (fc :: rest).length)
              simp only [countType, List.filter_append, List.filter_cons,
                List.length_append] at hlogs hrec ⊢
              simp only [List.length_cons] at hrec
              simp [createAssistantMessage, hlogs, hrec]

theorem runLoop_events_ne_nil (tools : List (String × ToolFunction)) (oracle : ModelOracle)
    (chat : List AgentMessage) (threadId : String) (fuel callNo : Nat)
    (history : List AgentMessage) (callIdx : Nat) :
    (runLoop tools oracle chat threadId fuel callNo history callIdx).events ≠ [] := by
  cases fuel with
  | zero =>
      cases h : oracle callNo with
      | fail err => simp [runLoop, h]
      | reply fcs text => simp [runLoop, h]
  | succ fuel =>
      cases h : oracle callNo with
      | fail err => simp [runLoop, h]
      | reply fcs text =>
          cases fcs with
          | nil => simp [runLoop, h]
          | cons fc rest => simp [runLoop, h]

theorem countType_cons (t : MessageType) (m : AgentMessage) (l : List AgentMessage) :
    countType t (m :: l) = (if m.type = some t then 1 else 0) + countType t l := by
  simp only [countType, List.filter_cons]
  by_cases hm : m.type = some t
  · simp [hm, Nat.add_comm]
  · simp [hm]

theorem runLoop_thrown (tools : List (String × ToolFunction)) (oracle : ModelOracle)
    (chat : List AgentMessage) (threadId : String) :
    ∀ (fuel callNo : Nat) (history : List AgentMessage) (callIdx : Nat) (e : String),
      (runLoop tools oracle chat threadId fuel callNo history callIdx).outcome
        = Outcome.thrown e →
      countType MessageType.error
          (runLoop tools oracle chat threadId fuel callNo history callIdx).events
        = (if (runLoop tools oracle chat threadId fuel callNo history callIdx).calls.length
              ≤ fuel then 1 else 0) ∧
      ((runLoop tools oracle chat threadId fuel callNo history callIdx).calls.length ≤ fuel →
        (runLoop tools oracle chat threadId fuel callNo history callIdx).events.getLast?
          = some (createAssistantMessage MessageType.error e (some threadId))) := by
  intro fuel
  induction fuel with
  | zero =>
      intro callNo history callIdx e hout
      cases h : oracle callNo with
      | fail err =>
          constructor
          · simp [runLoop, h, countType, createAssistantMessage]
          · intro hle
            simp [runLoop, h] at hle
      | reply fcs text => simp [runLoop, h] at hout
  | succ fuel ih =>
      intro callNo history callIdx e hout
      cases h : oracle callNo with
      | fail err =>
          simp only [runLoop, h] at hout ⊢
          have he : e = "Agent error: " ++ err := by
            cases hout
            rfl
          subst he
          constructor
          · simp [countType, createAssistantMessage]
          · intro _
            rfl
      | reply fcs text =>
          cases fcs with
          | nil => simp [runLoop, h] at hout
          | cons fc rest =>
              simp only [runLoop, h, List.isEmpty_cons, Bool.false_eq_true, if_false]
                at hout ⊢
              have hlogs : countType MessageType.error
                  (processToolCalls tools threadId (fc :: rest) callIdx).1 = 0 := by
                rw [processToolCalls_fst]
                exact countType_dispatchLogs MessageType.error threadId
                  (fc :: rest) (by intro hc; cases hc)
              obtain ⟨hcount, hlast⟩ := ih (callNo + 1)
                (history ++ (processToolCalls tools threadId (fc :: rest) callIdx).2)
                (callIdx + (fc :: rest).length) e hout
              simp only [List.length_cons] at hcount hlast
              have hiff : ∀ (L f : Nat), (if L ≤ f then (1 : Nat) else 0)
                  = if L + 1 ≤ f + 1 then 1 else 0 := by
                intro L f
                simp [Nat.add_le_add_iff_right]
              constructor
              · rw [countType_append, countType_cons, countType_cons, hlogs]
                simp only [List.length_cons] at hcount ⊢
                rw [hcount]
                simp only [createAssistantMessage, Nat.add_zero, Nat.zero_add]
                simp only [Option.some.injEq, reduceCtorEq, if_false]
                simp only [Nat.zero_add]
                exact hiff _ _
              · intro hle
                simp only [List.length_cons] at hle
                have hle' := Nat.le_of_succ_le_succ hle
                rw [List.getLast?_append_of_ne_nil _
                  (runLoop_events_ne_nil tools oracle chat threadId fuel (callNo + 1) _ _)]
                exact hlast hle'

theorem runLoop_calls_spec (tools : List (String × ToolFunction)) (oracle : ModelOracle)
    (chat : List AgentMessage) (threadId : String) :
    ∀ (fuel callNo : Nat) (history : List AgentMessage) (callIdx : Nat),
      ∀ r ∈ (runLoop tools oracle chat threadId fuel callNo history callIdx).calls,
        r.sessionHistory = chat ∧
        (r.message = r.historyAt.getLastD undefinedMessage ∨
         r.message = concludeMessage (r.historyAt.getLastD undefinedMessage)) := by
  intro fuel
  induction fuel with
  | zero =>
      intro callNo history callIdx r hr
      cases h : oracle callNo with
      | fail err =>
          simp only [runLoop, h, List.mem_singleton] at hr
          subst hr
          exact ⟨rfl, Or.inr rfl⟩
      | reply fcs text =>
          simp only [runLoop, h, List.mem_singleton] at hr
          subst hr
          exact ⟨rfl, Or.inr rfl⟩
  | succ fuel ih =>
      intro callNo history callIdx r hr
      cases h : oracle callNo with
      | fail err =>
          simp only [runLoop, h, List.mem_singleton] at hr
          subst hr
          exact ⟨rfl, Or.inl rfl⟩
      | reply fcs text =>
          cases fcs with
          | nil =>
              simp only [runLoop, h, List.isEmpty_nil, if_true] at hr
              simp only [List.mem_singleton] at hr
              subst hr
              exact ⟨rfl, Or.inl rfl⟩
          | cons fc rest =>
              simp only [runLoop, h, List.isEmpty_cons, Bool.false_eq_true, if_false,
                List.mem_cons] at hr
              rcases hr with hr | hr
              · subst hr
                exact ⟨rfl, Or.inl rfl⟩
              · exact ih (callNo + 1) _ _ r hr

theorem processToolCalls_callIds (tools : List (String × ToolFunction)) (threadId : String) :
    ∀ (fcs : List FunctionCall) (idx : Nat),
      (processToolCalls tools threadId fcs idx).2.map (fun m => m.tool_call_id)
        = callIdsSpec tools threadId fcs idx := by
  intro fcs
  induction fcs with
  | nil => intro idx; rfl
  | cons fc rest ih =>
      intro idx
      simp only [processToolCalls, callIdsSpec, List.map_append, ih]
      congr 1
      rw [List.map_map]
      have : ((fun m => AgentMessage.tool_call_id m) ∘ toToolEntry (mkToolCall idx fc threadId) threadId)
          = fun _ => some (callId idx) := by
        funext m
        rfl
      rw [this]
      simp [terminalCount, List.map_const']

theorem callIdsSpec_of_one (tools : List (String × ToolFunction)) (threadId : String) :
    ∀ (fcs : List FunctionCall) (idx : Nat),
      eachCallOneTerminal tools threadId fcs idx →
      callIdsSpec tools threadId fcs idx = callIdsInOrder fcs idx := by
  intro fcs
  induction fcs with
  | nil => intro idx _; rfl
  | cons fc rest ih =>
      intro idx h
      obtain ⟨h1, h2⟩ := h
      simp only [callIdsSpec, callIdsInOrder, h1, List.replicate, List.nil_append,
        List.cons_append, ih idx.succ h2]

theorem ensureInstruction_shape (config : AgentConfig) (m : AgentMessage)
    (rest : List AgentMessage) (threadId : String) :
    ensureInstruction config (m :: rest) threadId
      = (if m.role = MessageRole.user ∧ m.content = config.instruction then m :: rest
         else systemPromptMessage config threadId :: m :: rest) := by
  by_cases h : m.role = MessageRole.user ∧ m.content = config.instruction
  · simp [ensureInstruction, systemPromptMessage, h]
  · simp [ensureInstruction, systemPromptMessage, h]

theorem ensureInstruction_ne_nil (config : AgentConfig) (m : AgentMessage)
    (rest : List AgentMessage) (threadId : String) :
    ensureInstruction config (m :: rest) threadId ≠ [] := by
  rw [ensureInstruction_shape]
  by_cases h : m.role = MessageRole.user ∧ m.content = config.instruction
  · simp [h]
  · simp [h]

/-! ## Claim theorems -/

/-- C1: the claim states that for every dispatched ToolCall the dispatcher
emits exactly one terminal event, and that a streaming tool's terminal
string is emitted as a final `final_response` event.  The code contradicts
this: `for await` discards the generator's return value, so dispatching a
well-formed streaming tool that yields nothing and completes with the
terminal string "hello" emits no event at all — no `final_response`
carrying "hello" and no terminal event of any kind. -/
theorem claim1_streaming_terminal_dropped :
    executeToolCall [("echo", echoStreamTool)] echoStreamCall = [] := rfl

/-- C4: `runWithStream` always terminates with at most `maxTurns + 1`
adapter calls (`maxTurns` defaulting to 150 when the caller supplies no
value), and yields exactly one `final_response` event when it returns
successfully and none when it throws. -/
theorem claim4_termination (config : AgentConfig) (tools : List (String × ToolFunction))
    (oracle : ModelOracle) (threadId : String) (history0 : List AgentMessage)
    (messages : List AgentMessage) (options : Option Nat) :
    (runWithStream config tools oracle threadId history0 messages options).calls.length
      ≤ options.getD 150 + 1 ∧
    countType MessageType.final_response
        (runWithStream config tools oracle threadId history0 messages options).events
      = terminalExpected
          (runWithStream config tools oracle threadId history0 messages options).outcome ∧
    runWithStream config tools oracle threadId history0 messages none
      = runWithStream config tools oracle threadId history0 messages (some 150) := by
  refine ⟨?_, ?_, ?_⟩
  · cases messages with
    | nil => simp [runWithStream]
    | cons m rest =>
        simp only [runWithStream]
        exact runLoop_calls_length tools oracle _ threadId _ 0 _ 0
  · cases messages with
    | nil => simp [runWithStream, countType, terminalExpected]
    | cons m rest =>
        simp only [runWithStream]
        exact runLoop_final_count tools oracle _ threadId _ 0 _ 0
  · cases messages with
    | nil => rfl
    | cons m rest => rfl

/-- C6: the conversation history is append-only — the history after a
`run`/`runWithStream` call extends the history before it, strictly so for
non-empty input, and `run` shares the very same history evolution as
`runWithStream`. -/
theorem claim6_append_only (config : AgentConfig) (tools : List (String × ToolFunction))
    (oracle : ModelOracle) (threadId : String) (history0 : List AgentMessage)
    (messages : List AgentMessage) (options : Option Nat) :
    (∃ d, (runWithStream config tools oracle threadId history0 messages options).history
        = history0 ++ d) ∧
    (messages ≠ [] →
      (runWithStream config tools oracle threadId history0 messages options).history
        ≠ history0) ∧
    (run config tools oracle threadId history0 messages options).1
      = runWithStream config tools oracle threadId history0 messages options := by
  refine ⟨?_, ?_, rfl⟩
  · cases messages with
    | nil => exact ⟨[], by simp [runWithStream]⟩
    | cons m rest =>
        simp only [runWithStream]
        obtain ⟨d, hd, _⟩ := runLoop_history tools oracle
          ((history0 ++ ensureInstruction config (m :: rest) threadId).dropLast) threadId
          (options.getD 150) 0 (history0 ++ ensureInstruction config (m :: rest) threadId) 0
        exact ⟨ensureInstruction config (m :: rest) threadId ++ d,
          by rw [hd, List.append_assoc]⟩
  · cases messages with
    | nil => intro hne; exact absurd rfl hne
    | cons m rest =>
        intro _ heq
        simp only [runWithStream] at heq
        obtain ⟨d, hd, _⟩ := runLoop_history tools oracle
          ((history0 ++ ensureInstruction config (m :: rest) threadId).dropLast) threadId
          (options.getD 150) 0 (history0 ++ ensureInstruction config (m :: rest) threadId) 0
        rw [hd] at heq
        have hlen := congrArg List.length heq
        simp only [List.length_append] at hlen
        have hmwi : (ensureInstruction config (m :: rest) threadId).length = 0 := by omega
        exact ensureInstruction_ne_nil config m rest threadId (List.length_eq_zero.mp hmwi)

/-- C6 witness: a concrete non-empty run strictly extends the empty
initial history. -/
theorem claim6_append_only_witness :
    (runWithStream demoConfig [] textOracle "thread-1" [] [userHi] (some 1)).history
      ≠ [] :=
  (claim6_append_only demoConfig [] textOracle "thread-1" [] [userHi] (some 1)).2.1
    (by simp)

/-- C10: calling `run`/`runWithStream` with an empty messages array throws
(`ensureInstruction` dereferences `messages[0]`) before any adapter call
and before any history append: no events, no `sendMessage` records, the
history unchanged, and `run` collects nothing.  The tool registry is not
touched by the run at all (it is read-only input to the embedding). -/
theorem claim10_empty_messages_throws (config : AgentConfig)
    (tools : List (String × ToolFunction)) (oracle : ModelOracle) (threadId : String)
    (history0 : List AgentMessage) (options : Option Nat) :
    runWithStream config tools oracle threadId history0 [] options
      = ⟨[], history0, [], Outcome.thrown typeErrorEmptyMessages⟩ ∧
    (run config tools oracle threadId history0 [] options).2 = [] :=
  ⟨rfl, rfl⟩

/-- C2 counterexample: the claim states every event produced by the
dispatcher is forwarded to the caller on `runWithStream`'s stream.  In the
code the dispatch loop never yields the dispatcher's events: here the
dispatcher yields the progress chunk (it is the streaming tool's only
yield), yet the chunk appears nowhere in the run's event stream. -/
theorem claim2_dispatcher_event_not_forwarded :
    (executeToolCall [("progress", progressStreamTool)]
        (mkToolCall 0 { name := "progress", args := ([] : Args) } "thread-1"))
      = [progressChunk] ∧
    progressChunk ∉ progressRun.events := by
  refine ⟨rfl, ?_⟩
  decide

/-- C2 (amended): during DISPATCHING the stream carries exactly the
engine's own two `log` events per call and none of the dispatcher's
events; dispatcher events of type `final_response` or `error` are
synthesized into tool-role history entries (content preserved,
`tool_call_id` = the call's id), and progress-only dispatcher events are
appended nowhere. -/
theorem claim2_dispatch_consumed_internally (tools : List (String × ToolFunction))
    (threadId : String) (fcs : List FunctionCall) (idx : Nat) :
    (processToolCalls tools threadId fcs idx).1 = dispatchLogsSpec threadId fcs ∧
    (processToolCalls tools threadId fcs idx).2 = toolEntriesSpec tools threadId fcs idx ∧
    ∀ m ∈ (processToolCalls tools threadId fcs idx).2, m.role = MessageRole.tool := by
  refine ⟨processToolCalls_fst tools threadId fcs idx,
    processToolCalls_snd tools threadId fcs idx, ?_⟩
  intro m hm
  rw [processToolCalls_snd] at hm
  exact toolEntriesSpec_roles tools threadId fcs idx m hm

/-- C2 witness: the amended characterization evaluated on a concrete
one-call turn with a buffered tool. -/
theorem claim2_dispatch_consumed_internally_witness :
    (processToolCalls [("double", doubleTool)] "thread-1"
        [{ name := "double", args := ([] : Args) }] 0).1
      = dispatchLogsSpec "thread-1" [{ name := "double", args := ([] : Args) }] ∧
    ((processToolCalls [("double", doubleTool)] "thread-1"
        [{ name := "double", args := ([] : Args) }] 0).2.getD 0 undefinedMessage).role
      = MessageRole.tool := by
  refine ⟨(claim2_dispatch_consumed_internally [("double", doubleTool)] "thread-1"
    [{ name := "double", args := ([] : Args) }] 0).1, ?_⟩
  exact (claim2_dispatch_consumed_internally [("double", doubleTool)] "thread-1"
    [{ name := "double", args := ([] : Args) }] 0).2.2 _ (by decide)

/-- C3 counterexample: the claim states every `sendMessage` failure during
a run — including the forced-completion call — produces exactly one
`error` event before the failure propagates.  With `maxTurns = 0` the
forced-completion adapter call fails, one `sendMessage` call was made,
and the run propagates the raw failure with zero `error` events. -/
theorem claim3_forced_failure_no_error_event :
    forcedFailRun.outcome = Outcome.thrown "boom" ∧
    forcedFailRun.calls.length = 1 ∧
    countType MessageType.error forcedFailRun.events = 0 :=
  ⟨rfl, rfl, rfl⟩

/-- C3 (amended): when a run throws, history entries appended before the
failure are retained and no further adapter calls are made; a failure of
a THINKING-turn `sendMessage` (at most `maxTurns` loop calls) emits
exactly one `error` event, which is the last event and carries the thrown
message; a failure of the forced-completion call (the `maxTurns + 1`-st
call) emits no `error` event at all. -/
theorem claim3_adapter_failure (config : AgentConfig)
    (tools : List (String × ToolFunction)) (oracle : ModelOracle) (threadId : String)
    (history0 : List AgentMessage) (m : AgentMessage) (rest : List AgentMessage)
    (options : Option Nat) (e : String)
    (hout : (runWithStream config tools oracle threadId history0 (m :: rest)
        options).outcome = Outcome.thrown e) :
    (∃ d, (runWithStream config tools oracle threadId history0 (m :: rest)
        options).history = history0 ++ d) ∧
    (runWithStream config tools oracle threadId history0 (m :: rest)
        options).calls.length ≤ options.getD 150 + 1 ∧
    countType MessageType.error
        (runWithStream config tools oracle threadId history0 (m :: rest) options).events
      = (if (runWithStream config tools oracle threadId history0 (m :: rest)
            options).calls.length ≤ options.getD 150 then 1 else 0) ∧
    ((runWithStream config tools oracle threadId history0 (m :: rest)
        options).calls.length ≤ options.getD 150 →
      (runWithStream config tools oracle threadId history0 (m :: rest)
          options).events.getLast?
        = some (createAssistantMessage MessageType.error e (some threadId))) := by
  simp only [runWithStream] at hout ⊢
  obtain ⟨hcount, hlast⟩ := runLoop_thrown tools oracle
    ((history0 ++ ensureInstruction config (m :: rest) threadId).dropLast) threadId
    (options.getD 150) 0 (history0 ++ ensureInstruction config (m :: rest) threadId) 0
    e hout
  obtain ⟨d, hd, _⟩ := runLoop_history tools oracle
    ((history0 ++ ensureInstruction config (m :: rest) threadId).dropLast) threadId
    (options.getD 150) 0 (history0 ++ ensureInstruction config (m :: rest) threadId) 0
  refine ⟨⟨ensureInstruction config (m :: rest) threadId ++ d,
    by rw [hd, List.append_assoc]⟩,
    runLoop_calls_length tools oracle _ threadId _ 0 _ 0, hcount, hlast⟩

/-- C3 witness: a failure on the first THINKING turn produces exactly one
`error` event, as the last event, and the run aborts. -/
theorem claim3_adapter_failure_witness :
    (∃ d, loopFailRun.history = ([] : List AgentMessage) ++ d) ∧
    countType MessageType.error loopFailRun.events = 1 ∧
    loopFailRun.events.getLast?
      = some (createAssistantMessage MessageType.error "Agent error: boom"
          (some "thread-1")) := by
  have h := claim3_adapter_failure demoConfig [] failOracle "thread-1" [] userHi []
    (some 3) "Agent error: boom" rfl
  exact ⟨h.1, (h.2.2.1).trans (by decide), h.2.2.2 (by decide)⟩

/-- C7 counterexample: the claim states each THINKING turn calls
`startChat` on the current history minus its newest entry.  The code
creates one session before the loop: on the second turn of this run the
session was built from `[instruction]` while the history minus its newest
entry is `[instruction, "Hi"]`. -/
theorem claim7_session_not_per_turn :
    doubleRun.calls.length = 2 ∧
    (doubleRun.calls.getD 1 dummyRecord).sessionHistory
      ≠ ((doubleRun.calls.getD 1 dummyRecord).historyAt).dropLast := by
  refine ⟨rfl, ?_⟩
  decide

/-- C7 (amended): `startChat` is called exactly once per run, before the
first turn, on the history as of PREPARING minus its most recent message;
every `sendMessage` of the run reuses that single session, passing the
then-current most recent history entry (suffixed with the conclude
instruction on the forced-completion call). -/
theorem claim7_single_session (config : AgentConfig)
    (tools : List (String × ToolFunction)) (oracle : ModelOracle) (threadId : String)
    (history0 : List AgentMessage) (m : AgentMessage) (rest : List AgentMessage)
    (options : Option Nat) :
    ∀ r ∈ (runWithStream config tools oracle threadId history0 (m :: rest)
        options).calls,
      r.sessionHistory
          = (history0 ++ ensureInstruction config (m :: rest) threadId).dropLast ∧
      (r.message = r.historyAt.getLastD undefinedMessage ∨
       r.message = concludeMessage (r.historyAt.getLastD undefinedMessage)) := by
  intro r hr
  simp only [runWithStream] at hr
  exact runLoop_calls_spec tools oracle _ threadId _ 0 _ 0 r hr

/-- C7 witness: the amended characterization on the first record of a
concrete run. -/
theorem claim7_single_session_witness :
    doubleRunFirstRecord.sessionHistory
      = (([] : List AgentMessage)
          ++ ensureInstruction demoConfig [userHi] "thread-1").dropLast ∧
    (doubleRunFirstRecord.message
        = doubleRunFirstRecord.historyAt.getLastD undefinedMessage ∨
     doubleRunFirstRecord.message
        = concludeMessage (doubleRunFirstRecord.historyAt.getLastD undefinedMessage)) :=
  claim7_single_session demoConfig [("double", doubleTool)] doubleOracle "thread-1"
    [] userHi [] (some 5) doubleRunFirstRecord (by decide)

/-- C8 counterexample: the claim keys the as-is branch on the first input
message equalling the instruction; the code additionally requires the
`user` role.  An assistant-role message whose content equals the
instruction still gets a synthetic instruction message prepended. -/
theorem claim8_rogue_role_prepends :
    roguePromptMessage.content = demoConfig.instruction ∧
    roguePromptRun.history
      = [systemPromptMessage demoConfig "thread-1", roguePromptMessage,
         assistantReply "ok" "thread-1"] :=
  ⟨rfl, rfl⟩

/-- C8 (amended): in PREPARING the input is appended as-is exactly when
the first message is user-role with content equal to the instruction;
otherwise the synthetic instruction message is prepended first.  The rest
of the run appends only tool- and assistant-role entries, so two
consecutive runs whose messages begin with the user-role instruction
message never duplicate the instruction. -/
theorem claim8_instruction_preparation (config : AgentConfig)
    (tools : List (String × ToolFunction)) (oracle : ModelOracle) (threadId : String)
    (history0 : List AgentMessage) (m : AgentMessage) (rest : List AgentMessage)
    (options : Option Nat) :
    (∃ d, (runWithStream config tools oracle threadId history0 (m :: rest)
          options).history
        = history0 ++ ensureInstruction config (m :: rest) threadId ++ d ∧
      ∀ x ∈ d, x.role = MessageRole.tool ∨ x.role = MessageRole.assistant) ∧
    (m.role = MessageRole.user → m.content = config.instruction →
      ensureInstruction config (m :: rest) threadId = m :: rest) ∧
    (¬(m.role = MessageRole.user ∧ m.content = config.instruction) →
      ensureInstruction config (m :: rest) threadId
        = systemPromptMessage config threadId :: m :: rest) := by
  refine ⟨?_, ?_, ?_⟩
  · simp only [runWithStream]
    obtain ⟨d, hd, hroles⟩ := runLoop_history tools oracle
      ((history0 ++ ensureInstruction config (m :: rest) threadId).dropLast) threadId
      (options.getD 150) 0 (history0 ++ ensureInstruction config (m :: rest) threadId) 0
    exact ⟨d, hd, hroles⟩
  · intro h1 h2
    rw [ensureInstruction_shape]
    simp [h1, h2]
  · intro h
    rw [ensureInstruction_shape]
    simp [h]

/-- C8 witness: a user-role first message carrying the instruction is
accepted as-is. -/
theorem claim8_instruction_preparation_witness :
    ensureInstruction demoConfig [instructionFirstMessage] "thread-1"
      = [instructionFirstMessage] :=
  (claim8_instruction_preparation demoConfig [] textOracle "thread-1" []
    instructionFirstMessage [] (some 1)).2.1 rfl rfl

/-- C9 counterexample: the claim asserts k requested calls leave k
tool-role history entries.  A turn requesting a normally-completing
streaming call and a buffered call leaves only one tool-role entry,
because the streaming call's dispatch produces no terminal event. -/
theorem claim9_missing_entry :
    mixedOracle 0
      = ModelResponse.reply [{ name := "echo", args := ([] : Args) },
          { name := "double", args := ([] : Args) }] "" ∧
    (mixedRun.history.filter fun m => m.role = MessageRole.tool).length = 1 := by
  refine ⟨rfl, ?_⟩
  decide

/-- C9 (amended): calls are dispatched strictly sequentially in request
order, each drained fully before the next; the tool-role entries of a
turn are, in order, each call's terminal events (so their
`tool_call_id`s are the calls' ids grouped in request order), the whole
block is appended to history before the next turn, and when every call
produces exactly one terminal event the k entries' ids are exactly the k
call ids in request order. -/
theorem claim9_sequential_dispatch (tools : List (String × ToolFunction))
    (threadId : String) (fcs : List FunctionCall) (idx : Nat) :
    (processToolCalls tools threadId fcs idx).2.map (fun m => m.tool_call_id)
      = callIdsSpec tools threadId fcs idx ∧
    (eachCallOneTerminal tools threadId fcs idx →
      (processToolCalls tools threadId fcs idx).2.map (fun m => m.tool_call_id)
        = callIdsInOrder fcs idx) ∧
    (∀ (oracle : ModelOracle) (chat : List AgentMessage) (fuel callNo : Nat)
      (history : List AgentMessage) (text : String),
      oracle callNo = ModelResponse.reply fcs text → fcs ≠ [] →
      ∃ d, (runLoop tools oracle chat threadId (fuel + 1) callNo history idx).history
          = history ++ (processToolCalls tools threadId fcs idx).2 ++ d) := by
  refine ⟨processToolCalls_callIds tools threadId fcs idx, ?_, ?_⟩
  · intro h
    rw [processToolCalls_callIds]
    exact callIdsSpec_of_one tools threadId fcs idx h
  · intro oracle chat fuel callNo history text hor hne
    cases fcs with
    | nil => exact absurd rfl hne
    | cons fc rest =>
        simp only [runLoop, hor, List.isEmpty_cons, Bool.false_eq_true, if_false]
        obtain ⟨d, hd, _⟩ := runLoop_history tools oracle chat threadId fuel (callNo + 1)
          (history ++ (processToolCalls tools threadId (fc :: rest) idx).2)
          (idx + (fc :: rest).length)
        exact ⟨d, by rw [hd]⟩

/-- C9 witness: two buffered calls in one turn yield two tool-role
entries whose ids are the calls' ids in request order. -/
theorem claim9_sequential_dispatch_witness :
    (processToolCalls [("double", doubleTool)] "thread-1"
        [{ name := "double", args := ([] : Args) },
         { name := "double", args := ([] : Args) }] 0).2.map (fun m => m.tool_call_id)
      = [some "call_0", some "call_1"] := by
  have h := (claim9_sequential_dispatch [("double", doubleTool)] "thread-1"
    [{ name := "double", args := ([] : Args) },
     { name := "double", args := ([] : Args) }] 0).2.1
    (by simp only [eachCallOneTerminal]; exact ⟨by decide, by decide, trivial⟩)
  exact h.trans (by decide)

/-- C5: every local dispatch failure — registry miss, a registrant with
neither execution shape, schema validation failure (streaming or
buffered), or the tool's own execution throwing — produces exactly one
`error` event whose content names the tool (with the arguments and
underlying failure text for validation/execution failures); streaming
chunks yielded before a mid-stream throw are progress events under the
Tool contract, and then the throw still yields exactly one `error` event,
last; and a turn whose single call's dispatch produced one terminal event
appends exactly that one tool-role entry and continues to the next turn,
which completes the run without any exception escaping. -/
theorem claim5_local_failures_isolated :
    (∀ (tools : List (String × ToolFunction)) (tc : ToolCall),
      List.lookup tc.name tools = none →
      executeToolCall tools tc
        = [createAssistantMessage MessageType.error
            ("Error: Tool \x27" ++ tc.name ++ "\x27 not found") tc.threadId]) ∧
    (∀ (tools : List (String × ToolFunction)) (tc : ToolCall) (tool : ToolFunction),
      List.lookup tc.name tools = some tool →
      tool.run = none → tool.runWithStream = none →
      executeToolCall tools tc
        = [createAssistantMessage MessageType.error
            ("Error: Tool \x27" ++ tc.name ++
              "\x27 does not have a \x27run\x27 or \x27runWithStream\x27 method.")
            tc.threadId]) ∧
    (∀ (tools : List (String × ToolFunction)) (tc : ToolCall) (tool : ToolFunction)
      (s : Args → List AgentMessage × Except String String) (zodMessage : String),
      List.lookup tc.name tools = some tool →
      tool.runWithStream = some s →
      tool.parameters tc.arguments = Except.error zodMessage →
      executeToolCall tools tc
        = [createAssistantMessage MessageType.error
            ("Error: Invalid arguments for " ++ toolSignature tc ++ ": " ++ zodMessage)
            tc.threadId]) ∧
    (∀ (tools : List (String × ToolFunction)) (tc : ToolCall) (tool : ToolFunction)
      (rf : Args → Except String String) (zodMessage : String),
      List.lookup tc.name tools = some tool →
      tool.runWithStream = none → tool.run = some rf →
      tool.parameters tc.arguments = Except.error zodMessage →
      executeToolCall tools tc
        = [createAssistantMessage MessageType.error
            ("Error: Invalid arguments for " ++ toolSignature tc ++ ": " ++ zodMessage)
            tc.threadId]) ∧
    (∀ (tools : List (String × ToolFunction)) (tc : ToolCall) (tool : ToolFunction)
      (rf : Args → Except String String) (v : Args) (e : String),
      List.lookup tc.name tools = some tool →
      tool.runWithStream = none → tool.run = some rf →
      tool.parameters tc.arguments = Except.ok v →
      rf v = Except.error e →
      executeToolCall tools tc
        = [createAssistantMessage MessageType.error
            ("Error executing " ++ toolSignature tc ++ ": " ++ e) tc.threadId]) ∧
    (∀ (tools : List (String × ToolFunction)) (tc : ToolCall) (tool : ToolFunction)
      (s : Args → List AgentMessage × Except String String) (v : Args)
      (chunks : List AgentMessage) (e : String),
      List.lookup tc.name tools = some tool →
      tool.runWithStream = some s →
      tool.parameters tc.arguments = Except.ok v →
      s v = (chunks, Except.error e) →
      (∀ c ∈ chunks, isTerminal c = false) →
      executeToolCall tools tc
          = chunks ++ [createAssistantMessage MessageType.error
              ("Error executing " ++ toolSignature tc ++ ": " ++ e) tc.threadId] ∧
      (executeToolCall tools tc).filter isTerminal
          = [createAssistantMessage MessageType.error
              ("Error executing " ++ toolSignature tc ++ ": " ++ e) tc.threadId] ∧
      countType MessageType.error (executeToolCall tools tc) = 1) ∧
    (∀ (config : AgentConfig) (tools : List (String × ToolFunction))
      (oracle : ModelOracle) (threadId : String) (history0 : List AgentMessage)
      (m : AgentMessage) (rest : List AgentMessage) (k : Nat) (fc : FunctionCall)
      (t0 txt : String) (errEvent : AgentMessage),
      oracle 0 = ModelResponse.reply [fc] t0 →
      oracle 1 = ModelResponse.reply [] txt →
      executeToolCall tools (mkToolCall 0 fc threadId) = [errEvent] →
      isTerminal errEvent = true →
      (runWithStream config tools oracle threadId history0 (m :: rest)
          (some (k + 2))).outcome
        = Outcome.success ((runWithStream config tools oracle threadId history0
            (m :: rest) (some (k + 2))).history) ∧
      (runWithStream config tools oracle threadId history0 (m :: rest)
          (some (k + 2))).history
        = history0 ++ ensureInstruction config (m :: rest) threadId
            ++ [toToolEntry (mkToolCall 0 fc threadId) threadId errEvent,
                assistantReply txt threadId]) := by
  refine ⟨?_, ?_, ?_, ?_, ?_, ?_, ?_⟩
  · intro tools tc hlookup
    simp [executeToolCall, hlookup]
  · intro tools tc tool hlookup hr hs
    simp [executeToolCall, hlookup, hr, hs]
  · intro tools tc tool s zodMessage hlookup hs hp
    simp [executeToolCall, hlookup, hs, hp]
  · intro tools tc tool rf zodMessage hlookup hs hr hp
    simp [executeToolCall, hlookup, hs, hr, hp]
  · intro tools tc tool rf v e hlookup hs hr hp hrf
    simp [executeToolCall, hlookup, hs, hr, hp, hrf]
  · intro tools tc tool s v chunks e hlookup hs hp hsv hprog
    have hexec : executeToolCall tools tc
        = chunks ++ [createAssistantMessage MessageType.error
            ("Error executing " ++ toolSignature tc ++ ": " ++ e) tc.threadId] := by
      simp [executeToolCall, hlookup, hs, hp, hsv]
    have hchunks : chunks.filter isTerminal = [] := by
      rw [List.filter_eq_nil_iff]
      intro c hc
      simp [hprog c hc]
    refine ⟨hexec, ?_, ?_⟩
    · rw [hexec, List.filter_append, hchunks]
      simp [isTerminal, createAssistantMessage]
    · rw [hexec, countType_append]
      have hcz : countType MessageType.error chunks = 0 := by
        simp only [countType, List.length_eq_zero, List.filter_eq_nil_iff]
        intro c hc
        have := hprog c hc
        simp only [isTerminal, Bool.or_eq_false_iff, decide_eq_false_iff_not] at this
        simp [this.2]
      rw [hcz]
      simp [countType, createAssistantMessage]
  · intro config tools oracle threadId history0 m rest k fc t0 txt errEvent
      hor0 hor1 hdisp hterm
    have hproc : processToolCalls tools threadId [fc] 0
        = ([createAssistantMessage MessageType.log
              ("Calling tool: " ++ (mkToolCall 0 fc threadId).name) (some threadId),
            createAssistantMessage MessageType.log
              ("Calling tool " ++ (mkToolCall 0 fc threadId).name ++ " completed.")
              (some threadId)],
           [toToolEntry (mkToolCall 0 fc threadId) threadId errEvent]) := by
      simp [processToolCalls, hdisp, hterm]
    simp only [runWithStream]
    rw [show k + 2 = (k + 1) + 1 from rfl]
    simp only [runLoop, hor0, List.isEmpty_cons, Bool.false_eq_true, if_false, hproc,
      List.length_cons, List.length_nil, Nat.zero_add]
    simp only [runLoop, hor1, List.isEmpty_nil, if_true]
    constructor
    · trivial
    · simp [List.append_assoc]

/-- C5 witness: each failure mode evaluated at a concrete dispatch, and a
run containing a failing dispatch that still completes successfully. -/
theorem claim5_local_failures_isolated_witness :
    executeToolCall [] ghostCall
      = [createAssistantMessage MessageType.error
          ("Error: Tool \x27" ++ ghostCall.name ++ "\x27 not found")
          ghostCall.threadId] ∧
    executeToolCall [("inert", methodlessTool)] methodlessCall
      = [createAssistantMessage MessageType.error
          ("Error: Tool \x27" ++ methodlessCall.name ++
            "\x27 does not have a \x27run\x27 or \x27runWithStream\x27 method.")
          methodlessCall.threadId] ∧
    executeToolCall [("strictstream", strictStreamTool)] strictStreamCall
      = [createAssistantMessage MessageType.error
          ("Error: Invalid arguments for " ++ toolSignature strictStreamCall ++ ": "
            ++ "Expected number, received string") strictStreamCall.threadId] ∧
    executeToolCall [("strict", validateTool)] validateCall
      = [createAssistantMessage MessageType.error
          ("Error: Invalid arguments for " ++ toolSignature validateCall ++ ": "
            ++ "Expected number, received string") validateCall.threadId] ∧
    executeToolCall [("boomtool", throwTool)] throwCall
      = [createAssistantMessage MessageType.error
          ("Error executing " ++ toolSignature throwCall ++ ": " ++ "ENOENT")
          throwCall.threadId] ∧
    (executeToolCall [("streamboom", streamThrowTool)] streamThrowCall).filter
        isTerminal
      = [createAssistantMessage MessageType.error
          ("Error executing " ++ toolSignature streamThrowCall ++ ": "
            ++ "midway failure") streamThrowCall.threadId] ∧
    missingRun.outcome = Outcome.success missingRun.history := by
  refine ⟨?_, ?_, ?_, ?_, ?_, ?_, ?_⟩
  · exact claim5_local_failures_isolated.1 [] ghostCall rfl
  · exact claim5_local_failures_isolated.2.1 [("inert", methodlessTool)]
      methodlessCall methodlessTool rfl rfl rfl
  · exact claim5_local_failures_isolated.2.2.1 [("strictstream", strictStreamTool)]
      strictStreamCall strictStreamTool (fun _ => ([], Except.ok "x"))
      "Expected number, received string" rfl rfl rfl
  · exact claim5_local_failures_isolated.2.2.2.1 [("strict", validateTool)]
      validateCall validateTool (fun _ => Except.ok "ok")
      "Expected number, received string" rfl rfl rfl rfl
  · exact claim5_local_failures_isolated.2.2.2.2.1 [("boomtool", throwTool)]
      throwCall throwTool (fun _ => Except.error "ENOENT") ([] : Args) "ENOENT"
      rfl rfl rfl rfl rfl
  · exact (claim5_local_failures_isolated.2.2.2.2.2.1 [("streamboom", streamThrowTool)]
      streamThrowCall streamThrowTool
      (fun _ => ([progressChunk], Except.error "midway failure")) ([] : Args)
      [progressChunk] "midway failure" rfl rfl rfl rfl (by decide)).2.1
  · exact (claim5_local_failures_isolated.2.2.2.2.2.2 demoConfig [("double", doubleTool)]
      missingToolOracle "thread-1" [] userHi [] 0
      { name := "missing", args := ([] : Args) } "" "recovered"
      (createAssistantMessage MessageType.error
        ("Error: Tool \x27" ++ "missing" ++ "\x27 not found") (some "thread-1"))
      rfl rfl rfl rfl).1
